import Mathlib

/-
Verification of `impacket` (branch `WEP`) `ImpactDecoder.py`: the layered
packet-decoder framework.  Pure byte buffers are `List Nat`; the external
header-parsing library (`ImpactPacket.py` / `dot11.py`, collaborators of
this module) is abstracted as a structure of accessor functions
(`HeaderModel`), exactly the fields the decoders in `ImpactDecoder.py`
consult.  Fallible decode paths (Python exceptions) are modelled with
`Except`; the `None` value that the confidentiality-scheme decoders
return to mean "not this scheme" is modelled as `Option.none` inside
`Except.ok`.
-/

/-- Python slice `l[a:b]` on a byte string, for non-negative bounds:
elements at indices `a, a+1, ..., min b (length l) - 1`. -/
def pySlice (l : List Nat) (a b : Nat) : List Nat :=
  (l.take b).drop a

/-- Modelled from the spec: `ImpactPacket.IP.ethertype`, the ethertype
discriminant for IP, declared in `ImpactPacket.py` (not under `src/`). -/
def ethertypeIP : Nat := 0x800

/-- Modelled from the spec: `ImpactPacket.ARP.ethertype`, declared in
`ImpactPacket.py` (not under `src/`). -/
def ethertypeARP : Nat := 0x806

/-- Modelled from the spec: `ImpactPacket.UDP.protocol`, the IP
protocol number for UDP, declared in `ImpactPacket.py` (not under `src/`). -/
def protocolUDP : Nat := 17

/-- Modelled from the spec: `ImpactPacket.TCP.protocol`, declared in
`ImpactPacket.py` (not under `src/`). -/
def protocolTCP : Nat := 6

/-- Modelled from the spec: `ImpactPacket.ICMP.protocol`, declared in
`ImpactPacket.py` (not under `src/`). -/
def protocolICMP : Nat := 1

/-- Modelled from the spec: `ImpactPacket.ICMP.ICMP_UNREACH`, the
"destination unreachable" ICMP type, declared in `ImpactPacket.py`
(not under `src/`). -/
def icmpUnreach : Nat := 3

/-- Modelled from the spec: `dot11.SAPTypes.SNAP`, the SNAP
service-access-point value, declared in `dot11.py` (not under `src/`). -/
def sapSNAP : Nat := 0xAA

/-- Modelled from the spec: `dot11.LLC.DLC_UNNUMBERED_FRAMES`, declared
in `dot11.py` (not under `src/`). -/
def dlcUnnumberedFrames : Nat := 0x03

/-- Runtime type (Python `__class__`) of a decoded protocol node: one
constructor per `ImpactPacket`/`dot11` class the decoders build. -/
inductive ProtoKind where
  | ethernet
  | linuxSLL
  | ip
  | arp
  | udp
  | tcp
  | icmp
  | data
  | dot11DataFrame
  | dot11DataQoSFrame
  | dot11DataAddr4Frame
  | dot11DataAddr4QoSFrame
  | dot11WEP
  | dot11WEPData
  | dot11WPA
  | dot11WPAData
  | dot11WPA2
  | dot11WPA2Data
  | llc
  | snap
deriving DecidableEq

/-- Decoded protocol node.  `node k b c` is a node of class `k` built
from buffer `b` whose `contains` link was set to `c`; `leaf k b` is a
node on which `contains` was never called (its `child()` is `None`) —
in this module that is the terminal `ImpactPacket.Data` node. -/
inductive Node where
  | leaf (kind : ProtoKind) (buf : List Nat)
  | node (kind : ProtoKind) (buf : List Nat) (child : Node)
deriving DecidableEq

/-- Runtime class of a node (`protocol.__class__`). -/
def Node.kind : Node → ProtoKind
  | .leaf k _ => k
  | .node k _ _ => k

/-- Buffer the node's constructor was handed. -/
def Node.buf : Node → List Nat
  | .leaf _ b => b
  | .node _ b _ => b

/-- Child link (`protocol.child()`): `none` on a terminal node. -/
def Node.child? : Node → Option Node
  | .leaf _ _ => none
  | .node _ _ c => some c

/-- Walk of the single-child links starting at a node. -/
def Node.chain : Node → List Node
  | .leaf k b => [.leaf k b]
  | .node k b c => .node k b c :: c.chain

/-- Python runtime errors that the decode paths of `ImpactDecoder.py`
can raise. -/
inductive DecodeError where
  | unboundLocal (name : String)
  | nameError (name : String)
  | attributeError (name : String)
deriving DecidableEq

/-- Accessors of the external header-parsing library (`ImpactPacket.py`
and `dot11.py`) that `ImpactDecoder.py` consults.  Each field models one
method of a header class: e.g. `ipHeaderSize b` is
`ImpactPacket.IP(b).get_header_size()`, `wepSig b` is
`dot11.Dot11WEP(b).is_WEP()`, `dataFrameBody addr4 qos b` is the
`body_string` of the `dot11` data-frame class selected by the
Address-4/QoS flags. -/
structure HeaderModel where
  ethHeaderSize : List Nat → Nat
  etherType : List Nat → Nat
  ipHeaderSize : List Nat → Nat
  ipLen : List Nat → Nat
  ipProto : List Nat → Nat
  arpHeaderSize : List Nat → Nat
  udpHeaderSize : List Nat → Nat
  tcpHeaderSize : List Nat → Nat
  icmpHeaderSize : List Nat → Nat
  icmpType : List Nat → Nat
  llcDSAP : List Nat → Nat
  llcSSAP : List Nat → Nat
  llcControl : List Nat → Nat
  llcBody : List Nat → List Nat
  snapOUI : List Nat → Nat
  snapProtoID : List Nat → Nat
  snapBody : List Nat → List Nat
  wepSig : List Nat → Bool
  wepBody : List Nat → List Nat
  wepDecrypt : List Nat → List Nat
  wepDataBody : List Nat → List Nat
  wpaSig : List Nat → Bool
  wpaBody : List Nat → List Nat
  wpaDecrypt : List Nat → List Nat
  wpa2Sig : List Nat → Bool
  wpa2Body : List Nat → List Nat
  wpa2Decrypt : List Nat → List Nat
  dataFrameBody : Bool → Bool → List Nat → List Nat

/-- `DataDecoder.decode`: wraps the buffer as a terminal opaque
`ImpactPacket.Data` node. -/
def dataDecode (buf : List Nat) : Node :=
  .leaf .data buf

/-- `UDPDecoder.decode`: UDP header, rest handed to the opaque decoder. -/
def udpDecode (hm : HeaderModel) (buf : List Nat) : Node :=
  .node .udp buf (dataDecode (buf.drop (hm.udpHeaderSize buf)))

/-- `TCPDecoder.decode`. -/
def tcpDecode (hm : HeaderModel) (buf : List Nat) : Node :=
  .node .tcp buf (dataDecode (buf.drop (hm.tcpHeaderSize buf)))

/-- `ARPDecoder.decode`. -/
def arpDecode (hm : HeaderModel) (buf : List Nat) : Node :=
  .node .arp buf (dataDecode (buf.drop (hm.arpHeaderSize buf)))

/-- `IPDecoderForICMP.decode`: the lenient IP decoder used only inside
ICMP "unreachable" payloads; dispatches on the protocol number to UDP or
falls back to opaque (no TCP/ICMP branch), body `aBuffer[off:]`. -/
def ipDecoderForICMPDecode (hm : HeaderModel) (buf : List Nat) : Node :=
  let off := hm.ipHeaderSize buf
  let packet :=
    if hm.ipProto buf = protocolUDP then udpDecode hm (buf.drop off)
    else dataDecode (buf.drop off)
  .node .ip buf packet

/-- `ICMPDecoder.decode`: on ICMP type `ICMP_UNREACH` the body goes to
the lenient `IPDecoderForICMP`, otherwise to the opaque decoder. -/
def icmpDecode (hm : HeaderModel) (buf : List Nat) : Node :=
  let off := hm.icmpHeaderSize buf
  let packet :=
    if hm.icmpType buf = icmpUnreach then ipDecoderForICMPDecode hm (buf.drop off)
    else dataDecode (buf.drop off)
  .node .icmp buf packet

/-- `IPDecoder.decode`: variable-size header, body slice
`aBuffer[off:end]` with `off = get_header_size()` and
`end = get_ip_len()`, dispatched on the IP protocol number. -/
def ipDecode (hm : HeaderModel) (buf : List Nat) : Node :=
  let off := hm.ipHeaderSize buf
  let en := hm.ipLen buf
  let packet :=
    if hm.ipProto buf = protocolUDP then udpDecode hm (pySlice buf off en)
    else if hm.ipProto buf = protocolTCP then tcpDecode hm (pySlice buf off en)
    else if hm.ipProto buf = protocolICMP then icmpDecode hm (pySlice buf off en)
    else dataDecode (pySlice buf off en)
  .node .ip buf packet

/-- `EthDecoder.decode`: dispatch on the ethertype to IP, ARP or opaque. -/
def ethDecode (hm : HeaderModel) (buf : List Nat) : Node :=
  let off := hm.ethHeaderSize buf
  let packet :=
    if hm.etherType buf = ethertypeIP then ipDecode hm (buf.drop off)
    else if hm.etherType buf = ethertypeARP then arpDecode hm (buf.drop off)
    else dataDecode (buf.drop off)
  .node .ethernet buf packet

/-- `SNAPDecoder.decode`: OUI must be 0, then dispatch on the embedded
ethertype to IP, ARP or opaque. -/
def snapDecode (hm : HeaderModel) (buf : List Nat) : Node :=
  let packet :=
    if hm.snapOUI buf ≠ 0 then dataDecode (hm.snapBody buf)
    else if hm.snapProtoID buf = ethertypeIP then ipDecode hm (hm.snapBody buf)
    else if hm.snapProtoID buf = ethertypeARP then arpDecode hm (hm.snapBody buf)
    else dataDecode (hm.snapBody buf)
  .node .snap buf packet

/-- `LLCDecoder.decode`.  In the source the `else:` of the dispatch is
indented at the level of the outermost `if` (dangling else), so for
`DSAP == SNAP` with `SSAP != SNAP` or `control != DLC_UNNUMBERED_FRAMES`
no branch assigns the local `packet`, and the following
`d.contains(packet)` raises `UnboundLocalError`.  The local is modelled
with `Option`; the unbound case yields the corresponding error. -/
def llcDecode (hm : HeaderModel) (buf : List Nat) : Except DecodeError Node :=
  let packet : Option Node :=
    if hm.llcDSAP buf = sapSNAP then
      if hm.llcSSAP buf = sapSNAP then
        if hm.llcControl buf = dlcUnnumberedFrames then
          some (snapDecode hm (hm.llcBody buf))
        else none
      else none
    else some (dataDecode (hm.llcBody buf))
  match packet with
  | some p => .ok (.node .llc buf p)
  | none => .error (.unboundLocal "packet")

/-- Python truthiness of the optional `key` argument of the
confidentiality-scheme decoders: `None` and the empty string are falsy. -/
def pyTruthy : Option (List Nat) → Bool
  | none => false
  | some k => !k.isEmpty

/-- `Dot11WEPDataDecoder.decode`: WEP-data wrapper, body handed to LLC. -/
def dot11WEPDataDecode (hm : HeaderModel) (buf : List Nat) : Except DecodeError Node :=
  match llcDecode hm (hm.wepDataBody buf) with
  | .ok packet => .ok (.node .dot11WEPData buf packet)
  | .error e => .error e

/-- `Dot11WEPDecoder.decode(aBuffer, key=None)`.  Returns `none` ("not
applicable") when `is_WEP()` is false.  In the source the `if key:` /
`else:` block is dedented relative to the method body (a whitespace
slip; the structurally identical `Dot11WPADecoder.decode` and
`Dot11WPA2Decoder.decode` carry the same block tab-indented at method
level); the embedding follows that evident block structure.  With a
truthy key the decrypted bytes (`wep.decrypt_data()`, an accessor of the
external `dot11.Dot11WEP` class) go to `Dot11WEPDataDecoder`, otherwise
the still-encrypted `body_string` is wrapped as opaque data. -/
def dot11WEPDecode (hm : HeaderModel) (buf : List Nat)
    (key : Option (List Nat)) : Except DecodeError (Option Node) :=
  if hm.wepSig buf = false then .ok none
  else if pyTruthy key then
    match dot11WEPDataDecode hm (hm.wepDecrypt buf) with
    | .ok packet => .ok (some (.node .dot11WEP buf packet))
    | .error e => .error e
  else .ok (some (.node .dot11WEP buf (dataDecode (hm.wepBody buf))))

/-- `Dot11WPADecoder.decode(aBuffer, key=None)`.  Returns `none` when
`is_WPA()` is false.  With a truthy key the source computes
`decoded_string = wpa.get_decrypted_data()` and then evaluates the name
`Dot11DataWPADataDecoder`, which is defined nowhere in the module (the
class is called `Dot11WPADataDecoder`), so that branch raises
`NameError` at run time. -/
def dot11WPADecode (hm : HeaderModel) (buf : List Nat)
    (key : Option (List Nat)) : Except DecodeError (Option Node) :=
  if hm.wpaSig buf = false then .ok none
  else if pyTruthy key then
    let _decoded := hm.wpaDecrypt buf
    .error (.nameError "Dot11DataWPADataDecoder")
  else .ok (some (.node .dot11WPA buf (dataDecode (hm.wpaBody buf))))

/-- `Dot11WPA2DataDecoder.decode`: the source binds a local
`llc_decoder` but then calls `self.llc_decoder.decode(...)`, and no
attribute `llc_decoder` is ever assigned on the instance, so the call
raises `AttributeError`. -/
def dot11WPA2DataDecode (_hm : HeaderModel) (_buf : List Nat) :
    Except DecodeError Node :=
  .error (.attributeError "llc_decoder")

/-- `Dot11WPA2Decoder.decode(aBuffer, key=None)`.  Returns `none` when
`is_WPA2()` is false; with a truthy key delegates the decrypted bytes to
`Dot11WPA2DataDecoder`, otherwise wraps the encrypted `body_string` as
opaque data. -/
def dot11WPA2Decode (hm : HeaderModel) (buf : List Nat)
    (key : Option (List Nat)) : Except DecodeError (Option Node) :=
  if hm.wpa2Sig buf = false then .ok none
  else if pyTruthy key then
    match dot11WPA2DataDecode hm (hm.wpa2Decrypt buf) with
    | .ok packet => .ok (some (.node .dot11WPA2 buf packet))
    | .error e => .error e
  else .ok (some (.node .dot11WPA2 buf (dataDecode (hm.wpa2Body buf))))

/-- Frame class picked by `Dot11DataDecoder.decode` from the
Address-4/QoS flags. -/
def dot11DataFrameKind (addr4 qos : Bool) : ProtoKind :=
  if addr4 then
    if qos then .dot11DataAddr4QoSFrame else .dot11DataAddr4Frame
  else if qos then .dot11DataQoSFrame else .dot11DataFrame

/-- `Dot11DataDecoder.decode` with its flags (`Addr4`, `QoS`,
`Private`) made explicit parameters.  `Private = false` delegates the
frame body to LLC.  `Private = true` runs the confidentiality chain:
WEP, then WPA, then WPA2, each invoked with the `key` parameter left at
its default `None`, advancing while the previous returned `None`;
when all three return `None` the body is wrapped as opaque data. -/
def dot11DataDecode (hm : HeaderModel) (addr4 qos priv : Bool)
    (buf : List Nat) : Except DecodeError Node :=
  let kind := dot11DataFrameKind addr4 qos
  let body := hm.dataFrameBody addr4 qos buf
  if priv = false then
    match llcDecode hm body with
    | .ok packet => .ok (.node kind buf packet)
    | .error e => .error e
  else
    match dot11WEPDecode hm body none with
    | .error e => .error e
    | .ok (some packet) => .ok (.node kind buf packet)
    | .ok none =>
      match dot11WPADecode hm body none with
      | .error e => .error e
      | .ok (some packet) => .ok (.node kind buf packet)
      | .ok none =>
        match dot11WPA2Decode hm body none with
        | .error e => .error e
        | .ok (some packet) => .ok (.node kind buf packet)
        | .ok none => .ok (.node kind buf (dataDecode body))

/-- `Decoder.get_protocol` loop body: walk the child links from a node,
stopping at the first node whose class equals the requested one;
reaching a terminal node (whose `child()` is `None`) ends the walk with
"not found". -/
def Node.findProto (k : ProtoKind) : Node → Option Node
  | .leaf kd b => if kd = k then some (.leaf kd b) else none
  | .node kd b c => if kd = k then some (.node kd b c) else c.findProto k

/-- `Decoder.get_protocol(aprotocol)`: starts from the recorded
`__decoded_protocol` (which is `None` before any decode). -/
def getProtocol (root : Option Node) (k : ProtoKind) : Option Node :=
  match root with
  | none => none
  | some n => n.findProto k

/-- Simultaneous swap `s[i], s[j] = s[j], s[i]` of the source
(`SSWAP(i,j)`). -/
def listSwap (s : List Nat) (a b : Nat) : List Nat :=
  let va := s.getD a 0
  let vb := s.getD b 0
  (s.set a vb).set b va

/-- Key-scheduling loop of `Dot11WEPDecoder.decrypt_data`: starting from
`s = range(256)` and `j = 0`, for each `i` in `0..255` set
`j = (j + s[i] + key[i % len(key)]) & 0xff` and swap `s[i], s[j]`. -/
def rc4KSArun (key : List Nat) : List Nat :=
  (List.foldl
    (fun sj i =>
      let s := sj.1
      let j := (sj.2 + s.getD i 0 + key.getD (i % key.length) 0) % 256
      (listSwap s i j, j))
    (List.range 256, 0) (List.range 256)).1

/-- Key scheduling as the source runs it: `key[i % len(key)]` raises
`ZeroDivisionError` when the key is empty, hence the `Option`. -/
def rc4KSA (key : List Nat) : Option (List Nat) :=
  if key.length = 0 then none else some (rc4KSArun key)

/-- Keystream-application loop of `decrypt_data`: per input byte `c`,
`i = (i+1) & 0xff`, `j = (j+s[i]) & 0xff`, swap `s[i], s[j]`, output
`c ^ s[(s[i] + s[j]) & 0xff]`. -/
def rc4Process (s : List Nat) (i j : Nat) : List Nat → List Nat
  | [] => []
  | c :: rest =>
    let i1 := (i + 1) % 256
    let j1 := (j + s.getD i1 0) % 256
    let s1 := listSwap s i1 j1
    (c ^^^ s1.getD ((s1.getD i1 0 + s1.getD j1 0) % 256) 0) ::
      rc4Process s1 i1 j1 rest

/-- Keystream bytes the loop of `rc4Process` XORs against the input:
they depend only on the cipher state and the position, not on the data. -/
def rc4Keystream (s : List Nat) (i j : Nat) : Nat → List Nat
  | 0 => []
  | n + 1 =>
    let i1 := (i + 1) % 256
    let j1 := (j + s.getD i1 0) % 256
    let s1 := listSwap s i1 j1
    s1.getD ((s1.getD i1 0 + s1.getD j1 0) % 256) 0 ::
      rc4Keystream s1 i1 j1 n

/-- `Dot11WEPDecoder.decrypt_data(key_string)`.  Mirrors the source:
bodies shorter than 8 bytes are returned unchanged before any key
scheduling; otherwise the RC4 key is `self.get_iv() + key_string` (the
IV is an accessor of the external header class, here the `iv`
parameter), the state is scheduled, and the keystream is applied to
`data` — a name the source never binds in this method (in the `dot11`
original it is the encrypted portion of the body), supplied here as the
`data` parameter.  The decrypted bytes are wrapped as `Dot11WEPData`
and then discarded: the ICV test is the literal constant `False`, so
the still-encrypted `self.body_string` is returned on every path. -/
def wepDecryptData (key_string iv data body : List Nat) : Option (List Nat) :=
  if body.length < 8 then some body
  else
    let key := iv ++ key_string
    match rc4KSA key with
    | none => none
    | some s =>
      let _out := rc4Process s 0 0 data
      some body

/-- Chain-of-responsibility fold described by the spec: try the
alternatives in order, keep the first applicable result, fall through
to the default at the end of the list. -/
def firstApplicable (alts : List (List Nat → Option Node))
    (dflt : List Nat → Node) (b : List Nat) : Node :=
  match alts with
  | [] => dflt b
  | f :: rest =>
    match f b with
    | some n => n
    | none => firstApplicable rest dflt b

/-- Outcome of the WEP attempt of the confidentiality chain (the chain
passes no key): a WEP node wrapping the opaque encrypted body when the
WEP signature matches, "not applicable" otherwise. -/
def wepAttempt (hm : HeaderModel) (b : List Nat) : Option Node :=
  if hm.wepSig b then some (.node .dot11WEP b (.leaf .data (hm.wepBody b)))
  else none

/-- Outcome of the WPA attempt of the confidentiality chain. -/
def wpaAttempt (hm : HeaderModel) (b : List Nat) : Option Node :=
  if hm.wpaSig b then some (.node .dot11WPA b (.leaf .data (hm.wpaBody b)))
  else none

/-- Outcome of the WPA2 attempt of the confidentiality chain. -/
def wpa2Attempt (hm : HeaderModel) (b : List Nat) : Option Node :=
  if hm.wpa2Sig b then some (.node .dot11WPA2 b (.leaf .data (hm.wpa2Body b)))
  else none

/-- Concrete header model for evaluation: fixed header sizes, all
discriminants off their recognized values, all signatures false. -/
def constHM : HeaderModel where
  ethHeaderSize := fun _ => 14
  etherType := fun _ => 0
  ipHeaderSize := fun _ => 20
  ipLen := fun b => b.length
  ipProto := fun _ => 0
  arpHeaderSize := fun _ => 28
  udpHeaderSize := fun _ => 8
  tcpHeaderSize := fun _ => 20
  icmpHeaderSize := fun _ => 8
  icmpType := fun _ => 0
  llcDSAP := fun _ => 0
  llcSSAP := fun _ => 0
  llcControl := fun _ => 0
  llcBody := fun b => b.drop 3
  snapOUI := fun _ => 0
  snapProtoID := fun _ => 0
  snapBody := fun b => b.drop 5
  wepSig := fun _ => false
  wepBody := fun b => b.drop 4
  wepDecrypt := fun b => b
  wepDataBody := fun b => b
  wpaSig := fun _ => false
  wpaBody := fun b => b.drop 8
  wpaDecrypt := fun b => b
  wpa2Sig := fun _ => false
  wpa2Body := fun b => b.drop 8
  wpa2Decrypt := fun b => b
  dataFrameBody := fun _ _ b => b

/-- Header model reporting `DSAP = SNAP` but `SSAP = 0`: the
combination on which `LLCDecoder.decode` leaves its local `packet`
unassigned. -/
def hmLLCBug : HeaderModel :=
  { constHM with llcDSAP := fun _ => sapSNAP }

/-- Header model of an ICMP "destination unreachable" packet whose
embedded IP payload carries UDP. -/
def hmIcmpUnreach : HeaderModel :=
  { constHM with
      icmpType := fun _ => icmpUnreach
      ipProto := fun _ => protocolUDP }

/-- Header model of an Ethernet frame carrying IP carrying TCP. -/
def hmEthTcp : HeaderModel :=
  { constHM with
      etherType := fun _ => ethertypeIP
      ipProto := fun _ => protocolTCP }

theorem pySlice_length_le (l : List Nat) (a b : Nat) :
    (pySlice l a b).length ≤ b - a := by
  simp only [pySlice, List.length_drop, List.length_take]
  omega

theorem pySlice_take (l : List Nat) (a b : Nat) :
    pySlice (l.take b) a b = pySlice l a b := by
  simp [pySlice, List.take_take]

theorem pySlice_getElem? (l : List Nat) (a b j : Nat)
    (h : j < (pySlice l a b).length) :
    (pySlice l a b)[j]? = l[a + j]? := by
  have hb : a + j < b := by
    simp only [pySlice, List.length_drop, List.length_take] at h
    omega
  simp [pySlice, List.getElem?_drop, List.getElem?_take, hb]

theorem findProto_eq_find (k : ProtoKind) :
    ∀ n : Node, n.findProto k = n.chain.find? (fun m => decide (m.kind = k)) := by
  intro n
  induction n with
  | leaf kd b =>
    by_cases h : kd = k <;> simp [Node.findProto, Node.chain, Node.kind, List.find?, h]
  | node kd b c ih =>
    by_cases h : kd = k <;> simp [Node.findProto, Node.chain, Node.kind, List.find?, h, ih]

/-- C2: for every buffer decoded by the IP decoder, the byte slice
handed to the child decoder is `aBuffer[off:end]` with
`off = header length` and `end = ip total length`: its `j`-th byte is
the buffer's byte at index `off + j`, its length is at most
`ip_total_length − header_length`, and bytes beyond the declared IP
total length are excluded (the slice is unchanged when the buffer is
truncated at `ip_total_length`). -/
theorem spec_c2_ip_child_slice (hm : HeaderModel) (buf : List Nat) :
    ∃ c, (ipDecode hm buf).child? = some c ∧
      c.buf = pySlice buf (hm.ipHeaderSize buf) (hm.ipLen buf) ∧
      (pySlice buf (hm.ipHeaderSize buf) (hm.ipLen buf)).length
        ≤ hm.ipLen buf - hm.ipHeaderSize buf ∧
      pySlice buf (hm.ipHeaderSize buf) (hm.ipLen buf)
        = pySlice (buf.take (hm.ipLen buf)) (hm.ipHeaderSize buf) (hm.ipLen buf) ∧
      ∀ j, j < (pySlice buf (hm.ipHeaderSize buf) (hm.ipLen buf)).length →
        (pySlice buf (hm.ipHeaderSize buf) (hm.ipLen buf))[j]?
          = buf[hm.ipHeaderSize buf + j]? := by
  have hchild : ∃ c, (ipDecode hm buf).child? = some c ∧
      c.buf = pySlice buf (hm.ipHeaderSize buf) (hm.ipLen buf) := by
    by_cases h1 : hm.ipProto buf = protocolUDP
    · exact ⟨udpDecode hm (pySlice buf (hm.ipHeaderSize buf) (hm.ipLen buf)),
        by simp [ipDecode, h1, Node.child?], by simp [udpDecode, Node.buf]⟩
    · by_cases h2 : hm.ipProto buf = protocolTCP
      · exact ⟨tcpDecode hm (pySlice buf (hm.ipHeaderSize buf) (hm.ipLen buf)),
          by simp [ipDecode, h1, h2, protocolUDP, protocolTCP, Node.child?], by simp [tcpDecode, Node.buf]⟩
      · by_cases h3 : hm.ipProto buf = protocolICMP
        · exact ⟨icmpDecode hm (pySlice buf (hm.ipHeaderSize buf) (hm.ipLen buf)),
            by simp [ipDecode, h1, h2, h3, protocolUDP, protocolTCP, protocolICMP, Node.child?], by simp [icmpDecode, Node.buf]⟩
        · exact ⟨dataDecode (pySlice buf (hm.ipHeaderSize buf) (hm.ipLen buf)),
            by simp [ipDecode, h1, h2, h3, Node.child?], by simp [dataDecode, Node.buf]⟩
  obtain ⟨c, hc1, hc2⟩ := hchild
  exact ⟨c, hc1, hc2, pySlice_length_le buf _ _, (pySlice_take buf _ _).symm,
    fun j hj => pySlice_getElem? buf _ _ j hj⟩

/-- C8: `get_protocol` walks the single-child links from the recorded
root and returns the first node whose runtime class equals the
requested protocol kind, or "not found" (`None`) after the terminal
node; before any decode the recorded root is `None` and the result is
`None`.  On a decoded Ethernet→IP→TCP→Data chain it returns the TCP
node for kind TCP and `None` for kind ARP. -/
theorem spec_c8_get_protocol :
    (∀ (n : Node) (k : ProtoKind),
      getProtocol (some n) k = n.chain.find? (fun m => decide (m.kind = k)))
    ∧ (∀ k : ProtoKind, getProtocol none k = none)
    ∧ (getProtocol (some (ethDecode hmEthTcp (List.range 60))) .tcp).map Node.kind
        = some .tcp
    ∧ getProtocol (some (ethDecode hmEthTcp (List.range 60))) .arp = none := by
  refine ⟨fun n k => findProto_eq_find k n, fun k => rfl, ?_, ?_⟩ <;> decide

theorem rc4Process_rc4Process (data : List Nat) :
    ∀ s i j, rc4Process s i j (rc4Process s i j data) = data := by
  induction data with
  | nil => intro s i j; rfl
  | cons c rest ih =>
    intro s i j
    simp only [rc4Process, ih, Nat.xor_assoc, Nat.xor_self, Nat.xor_zero]

theorem rc4Process_length (data : List Nat) :
    ∀ s i j, (rc4Process s i j data).length = data.length := by
  induction data with
  | nil => intro s i j; rfl
  | cons c rest ih => intro s i j; simp only [rc4Process, List.length_cons, ih]

theorem rc4Keystream_length (n : Nat) :
    ∀ s i j, (rc4Keystream s i j n).length = n := by
  induction n with
  | zero => intro s i j; rfl
  | succ m ih => intro s i j; simp only [rc4Keystream, List.length_cons, ih]

theorem rc4Process_eq_zipWith (data : List Nat) :
    ∀ s i j, rc4Process s i j data
      = data.zipWith (fun c k => c ^^^ k) (rc4Keystream s i j data.length) := by
  induction data with
  | nil => intro s i j; rfl
  | cons c rest ih =>
    intro s i j
    simp only [rc4Process, List.length_cons, rc4Keystream, List.zipWith, ih]

/-- C4: whenever `decrypt_data` actually performs RC4 decryption (body
at least 8 bytes, non-empty effective key), the decrypted output is
discarded and the original still-encrypted body is returned — the ICV
test is the constant `False`, so the decrypted `Dot11WEPData` wrapper
is never the result. -/
theorem spec_c4_icv_disabled (key_string iv data body : List Nat)
    (h8 : 8 ≤ body.length) (hk : iv ++ key_string ≠ []) :
    wepDecryptData key_string iv data body = some body := by
  have hkk : ¬(iv = [] ∧ key_string = []) := by
    intro hpair
    exact hk (by simp [hpair.1, hpair.2])
  simp [wepDecryptData, rc4KSA, Nat.not_lt.mpr h8, List.length_eq_zero,
    List.append_eq_nil, hkk]

theorem spec_c4_icv_disabled_witness :
    8 ≤ (List.replicate 8 0).length ∧ ([2, 3, 4] : List Nat) ++ [1] ≠ [] ∧
    wepDecryptData [1] [2, 3, 4] [5, 6] (List.replicate 8 0)
      = some (List.replicate 8 0) :=
  ⟨by decide, by decide,
    spec_c4_icv_disabled [1] [2, 3, 4] [5, 6] (List.replicate 8 0)
      (by decide) (by decide)⟩

/-- C9: for every WEP body shorter than 8 bytes, `decrypt_data` returns
the body unchanged through the early length guard: the result is the
same as with empty key material and empty RC4 input, i.e. no key
scheduling or keystream application contributes to it. -/
theorem spec_c9_short_body_guard (key_string iv data body : List Nat)
    (h : body.length < 8) :
    wepDecryptData key_string iv data body = some body ∧
    wepDecryptData key_string iv data body = wepDecryptData [] [] [] body := by
  constructor <;> simp [wepDecryptData, h]

theorem spec_c9_short_body_guard_witness :
    ([1, 2, 3] : List Nat).length < 8 ∧
    wepDecryptData [9] [8, 7, 6] [5] [1, 2, 3] = some [1, 2, 3] :=
  ⟨by decide, (spec_c9_short_body_guard [9] [8, 7, 6] [5] [1, 2, 3] (by decide)).1⟩

/-- C5: for every IV, secret key and plaintext, key scheduling over
`IV ++ secretKey` succeeds (the effective key is non-empty) and
applying the RC4 keystream loop twice from the scheduled state
reproduces the plaintext bit for bit; the loop XORs the data against a
keystream whose length equals the ciphertext's length. -/
theorem spec_c5_rc4_roundtrip (iv secret msg : List Nat)
    (h : iv ++ secret ≠ []) :
    rc4KSA (iv ++ secret) = some (rc4KSArun (iv ++ secret)) ∧
    rc4Process (rc4KSArun (iv ++ secret)) 0 0
        (rc4Process (rc4KSArun (iv ++ secret)) 0 0 msg) = msg ∧
    rc4Process (rc4KSArun (iv ++ secret)) 0 0 msg
      = msg.zipWith (fun c k => c ^^^ k)
          (rc4Keystream (rc4KSArun (iv ++ secret)) 0 0 msg.length) ∧
    (rc4Keystream (rc4KSArun (iv ++ secret)) 0 0 msg.length).length
      = (rc4Process (rc4KSArun (iv ++ secret)) 0 0 msg).length := by
  have hkk : ¬(iv = [] ∧ secret = []) := by
    intro hpair
    exact h (by simp [hpair.1, hpair.2])
  refine ⟨by simp [rc4KSA, List.length_eq_zero, List.append_eq_nil, hkk],
    rc4Process_rc4Process msg _ 0 0, rc4Process_eq_zipWith msg _ 0 0, ?_⟩
  rw [rc4Keystream_length, rc4Process_length]

theorem spec_c5_rc4_roundtrip_witness :
    ([2, 3, 4] : List Nat) ++ [7] ≠ [] ∧
    rc4Process (rc4KSArun ([2, 3, 4] ++ [7])) 0 0
        (rc4Process (rc4KSArun ([2, 3, 4] ++ [7])) 0 0 [10, 20, 30])
      = [10, 20, 30] :=
  ⟨by decide, (spec_c5_rc4_roundtrip [2, 3, 4] [7] [10, 20, 30] (by decide)).2.1⟩

/-- C3 (evaluation at the failing input): with `DSAP = SNAP` but
`SSAP = 0`, `LLCDecoder.decode` reaches `d.contains(packet)` with the
local `packet` never assigned — the `else` of the dispatch binds to the
outermost `if` — and raises instead of producing an opaque child. -/
theorem spec_c3_llc_dangling_else :
    llcDecode hmLLCBug [0xAA, 0x00, 0x03] = .error (.unboundLocal "packet") := by
  rfl

/-- C6: each confidentiality-scheme decoder answers "not applicable"
(`None`) exactly when its signature check (`is_WEP` / `is_WPA` /
`is_WPA2`) fails — for any `key` argument — and, as invoked with the
default `key=None`, a succeeding signature check always yields the
scheme's confidentiality node, never `None`. -/
theorem spec_c6_scheme_not_applicable (hm : HeaderModel) (buf : List Nat)
    (key : Option (List Nat)) :
    ((dot11WEPDecode hm buf key = .ok none) ↔ hm.wepSig buf = false) ∧
    ((dot11WPADecode hm buf key = .ok none) ↔ hm.wpaSig buf = false) ∧
    ((dot11WPA2Decode hm buf key = .ok none) ↔ hm.wpa2Sig buf = false) ∧
    dot11WEPDecode hm buf none
      = .ok (if hm.wepSig buf then
          some (.node .dot11WEP buf (.leaf .data (hm.wepBody buf))) else none) ∧
    dot11WPADecode hm buf none
      = .ok (if hm.wpaSig buf then
          some (.node .dot11WPA buf (.leaf .data (hm.wpaBody buf))) else none) ∧
    dot11WPA2Decode hm buf none
      = .ok (if hm.wpa2Sig buf then
          some (.node .dot11WPA2 buf (.leaf .data (hm.wpa2Body buf))) else none) := by
  refine ⟨?_, ?_, ?_, ?_, ?_, ?_⟩
  · cases hw : hm.wepSig buf
    · simp [dot11WEPDecode, hw]
    · cases hpt : pyTruthy key
      · simp [dot11WEPDecode, hw, hpt]
      · cases hd : dot11WEPDataDecode hm (hm.wepDecrypt buf) <;>
          simp [dot11WEPDecode, hw, hpt, hd]
  · cases hw : hm.wpaSig buf
    · simp [dot11WPADecode, hw]
    · cases hpt : pyTruthy key <;> simp [dot11WPADecode, hw, hpt]
  · cases hw : hm.wpa2Sig buf
    · simp [dot11WPA2Decode, hw]
    · cases hpt : pyTruthy key <;>
        simp [dot11WPA2Decode, dot11WPA2DataDecode, hw, hpt]
  · cases hw : hm.wepSig buf <;> simp [dot11WEPDecode, pyTruthy, hw, dataDecode]
  · cases hw : hm.wpaSig buf <;> simp [dot11WPADecode, pyTruthy, hw, dataDecode]
  · cases hw : hm.wpa2Sig buf <;> simp [dot11WPA2Decode, pyTruthy, hw, dataDecode]

/-- C1: for a protected Data frame the decoder's child is exactly the
result of trying WEP, then WPA, then WPA2 in order — advancing
precisely when the previous attempt answers "not applicable" — with
fall-through to an opaque node wrapping the original undecrypted frame
body; in particular, when none of the three signatures match, the
frame's child is that opaque node. -/
theorem spec_c1_conf_chain (hm : HeaderModel) (addr4 qos : Bool)
    (buf : List Nat) :
    dot11DataDecode hm addr4 qos true buf
      = .ok (.node (dot11DataFrameKind addr4 qos) buf
          (firstApplicable [wepAttempt hm, wpaAttempt hm, wpa2Attempt hm]
            dataDecode (hm.dataFrameBody addr4 qos buf)))
    ∧ (hm.wepSig (hm.dataFrameBody addr4 qos buf) = false →
       hm.wpaSig (hm.dataFrameBody addr4 qos buf) = false →
       hm.wpa2Sig (hm.dataFrameBody addr4 qos buf) = false →
       dot11DataDecode hm addr4 qos true buf
         = .ok (.node (dot11DataFrameKind addr4 qos) buf
             (.leaf .data (hm.dataFrameBody addr4 qos buf)))) := by
  constructor
  · cases hw : hm.wepSig (hm.dataFrameBody addr4 qos buf) <;>
    cases ha : hm.wpaSig (hm.dataFrameBody addr4 qos buf) <;>
    cases h2 : hm.wpa2Sig (hm.dataFrameBody addr4 qos buf) <;>
      simp [dot11DataDecode, dot11WEPDecode, dot11WPADecode, dot11WPA2Decode,
        firstApplicable, wepAttempt, wpaAttempt, wpa2Attempt, pyTruthy,
        dataDecode, hw, ha, h2]
  · intro hw ha h2
    simp [dot11DataDecode, dot11WEPDecode, dot11WPADecode, dot11WPA2Decode,
      pyTruthy, dataDecode, hw, ha, h2]

theorem spec_c1_conf_chain_witness :
    constHM.wepSig [1, 2] = false ∧ constHM.wpaSig [1, 2] = false ∧
    constHM.wpa2Sig [1, 2] = false ∧
    dot11DataDecode constHM false false true [1, 2]
      = .ok (.node .dot11DataFrame [1, 2] (.leaf .data [1, 2])) :=
  ⟨rfl, rfl, rfl, (spec_c1_conf_chain constHM false false [1, 2]).2 rfl rfl rfl⟩

/-- C10: the confidentiality chain invokes every scheme decoder with
the `key` parameter at its default `None`, so the chain never raises
and a matched confidentiality node's child is always the opaque node
wrapping the scheme's still-encrypted `body_string` — never a
decrypted-data wrapper. -/
theorem spec_c10_keyless_chain (hm : HeaderModel) (addr4 qos : Bool)
    (buf : List Nat) :
    dot11DataDecode hm addr4 qos true buf
      = .ok (.node (dot11DataFrameKind addr4 qos) buf
          (if hm.wepSig (hm.dataFrameBody addr4 qos buf) then
             .node .dot11WEP (hm.dataFrameBody addr4 qos buf)
               (.leaf .data (hm.wepBody (hm.dataFrameBody addr4 qos buf)))
           else if hm.wpaSig (hm.dataFrameBody addr4 qos buf) then
             .node .dot11WPA (hm.dataFrameBody addr4 qos buf)
               (.leaf .data (hm.wpaBody (hm.dataFrameBody addr4 qos buf)))
           else if hm.wpa2Sig (hm.dataFrameBody addr4 qos buf) then
             .node .dot11WPA2 (hm.dataFrameBody addr4 qos buf)
               (.leaf .data (hm.wpa2Body (hm.dataFrameBody addr4 qos buf)))
           else .leaf .data (hm.dataFrameBody addr4 qos buf)))
    ∧ ∀ e, dot11DataDecode hm addr4 qos true buf ≠ .error e := by
  constructor
  · cases hw : hm.wepSig (hm.dataFrameBody addr4 qos buf) <;>
    cases ha : hm.wpaSig (hm.dataFrameBody addr4 qos buf) <;>
    cases h2 : hm.wpa2Sig (hm.dataFrameBody addr4 qos buf) <;>
      simp [dot11DataDecode, dot11WEPDecode, dot11WPADecode, dot11WPA2Decode,
        pyTruthy, dataDecode, hw, ha, h2]
  · intro e
    cases hw : hm.wepSig (hm.dataFrameBody addr4 qos buf) <;>
    cases ha : hm.wpaSig (hm.dataFrameBody addr4 qos buf) <;>
    cases h2 : hm.wpa2Sig (hm.dataFrameBody addr4 qos buf) <;>
      simp [dot11DataDecode, dot11WEPDecode, dot11WPADecode, dot11WPA2Decode,
        pyTruthy, dataDecode, hw, ha, h2]

/-- C7: for a buffer whose ICMP type is the "destination unreachable"
value, the ICMP body is handed to the lenient `IPDecoderForICMP` (not
the standard IP decoder), and the IP node that decoder produces always
has a child: a UDP node exactly when the embedded IP protocol number is
UDP, an opaque node for every other protocol number — so decoding never
reaches the stricter decoder's TCP/ICMP branches. -/
theorem spec_c7_icmp_unreach (hm : HeaderModel) (buf : List Nat)
    (h : hm.icmpType buf = icmpUnreach) :
    icmpDecode hm buf
      = .node .icmp buf
          (ipDecoderForICMPDecode hm (buf.drop (hm.icmpHeaderSize buf)))
    ∧ (ipDecoderForICMPDecode hm (buf.drop (hm.icmpHeaderSize buf))).kind = .ip
    ∧ (∀ b : List Nat,
        (ipDecoderForICMPDecode hm b).child?
          = some (if hm.ipProto b = protocolUDP
              then udpDecode hm (b.drop (hm.ipHeaderSize b))
              else .leaf .data (b.drop (hm.ipHeaderSize b))))
    ∧ (∀ b : List Nat,
        ∃ c, (ipDecoderForICMPDecode hm b).child? = some c ∧
          (c.kind = .udp ∨ c.kind = .data) ∧
          (c.kind = .udp ↔ hm.ipProto b = protocolUDP)) := by
  refine ⟨by simp [icmpDecode, h], by simp [ipDecoderForICMPDecode, Node.kind],
    ?_, ?_⟩
  · intro b
    by_cases hb : hm.ipProto b = protocolUDP <;>
      simp [ipDecoderForICMPDecode, Node.child?, dataDecode, hb]
  · intro b
    by_cases hb : hm.ipProto b = protocolUDP
    · exact ⟨udpDecode hm (b.drop (hm.ipHeaderSize b)),
        by simp [ipDecoderForICMPDecode, Node.child?, hb],
        Or.inl (by simp [udpDecode, Node.kind]),
        by simp [udpDecode, Node.kind, hb]⟩
    · exact ⟨.leaf .data (b.drop (hm.ipHeaderSize b)),
        by simp [ipDecoderForICMPDecode, Node.child?, dataDecode, hb],
        Or.inr (by simp [Node.kind]),
        by simp [Node.kind, hb]⟩

theorem spec_c7_icmp_unreach_witness :
    hmIcmpUnreach.icmpType (List.range 28) = icmpUnreach ∧
    icmpDecode hmIcmpUnreach (List.range 28)
      = .node .icmp (List.range 28)
          (ipDecoderForICMPDecode hmIcmpUnreach ((List.range 28).drop 8)) :=
  ⟨rfl, (spec_c7_icmp_unreach hmIcmpUnreach (List.range 28) rfl).1⟩
